import Mathlib

/-!
Verification of the message-streaming relay of the chat application.

The embedding follows the source files:
  - src/core/domain/message.entity.ts        (Message, MessageRole)
  - src/core/ports/ai-gateway.port.ts        (AIGenerateOptions)
  - src/core/use-cases/send-message.use-case.ts (SendMessageUseCase)
  - src/infrastructure/gemini/gemini.gateway.ts (GeminiGateway)

Machine-independent parts (message conversion, validation, request
construction, the stream relay loop) are embedded as pure functions;
the upstream provider is abstracted as a function from the built
request to the chunk sequence it yields (the deterministic stub of the
spec), and a mid-stream failure is a boolean flag ending the chunk
sequence.
-/

/-- MessageRole from message.entity.ts: user | assistant | system. -/
inductive MessageRole where
  | user
  | assistant
  | system
deriving DecidableEq

/-- Message entity (message.entity.ts): id, role, content.  The
createdAt timestamp and metadata bag play no part in the gateway or
validator logic and are omitted. -/
structure Message where
  id : String
  role : MessageRole
  content : String
deriving DecidableEq

/-- AIGenerateOptions from ai-gateway.port.ts; every field optional. -/
structure AIGenerateOptions where
  temperature : Option ℚ := none
  maxTokens : Option Nat := none
  topP : Option ℚ := none
  model : Option String := none
  systemPrompt : Option String := none

/-- gemini.gateway.ts line 15. -/
def DEFAULT_MODEL : String := "gemini-2.0-flash-exp"

/-- gemini.gateway.ts line 16: the rational 0.7, written in normalized
numerator/denominator form so that it evaluates by kernel reduction. -/
def DEFAULT_TEMPERATURE : ℚ := Rat.mk' 7 10 (by decide) (by norm_num)

/-- gemini.gateway.ts line 17. -/
def DEFAULT_MAX_TOKENS : Nat := 2048

deriving instance DecidableEq for Except

/-- Model of JavaScript String.prototype.trim: strip whitespace from
both ends.  Defined over the character list (structural recursion) so
that it evaluates by kernel reduction. -/
def jsTrim (s : String) : String :=
  String.mk (((s.data.dropWhile Char.isWhitespace).reverse.dropWhile
    Char.isWhitespace).reverse)

namespace GeminiGateway

/-- A part of a Gemini Content value: just a text field. -/
structure Part where
  text : String
deriving DecidableEq

/-- Gemini Content: role string plus parts. -/
structure Content where
  role : String
  parts : List Part
deriving DecidableEq

/-- The per-message mapping inside convertMessagesToGeminiFormat:
assistant becomes role "model", everything else role "user", the
content wrapped in a single part. -/
def toGeminiContent (msg : Message) : Content :=
  { role := if msg.role = MessageRole.assistant then "model" else "user"
    parts := [{ text := msg.content }] }

/-- convertMessagesToGeminiFormat (gemini.gateway.ts lines 43-50):
drop system messages, then apply the per-message mapping. -/
def convertMessagesToGeminiFormat (messages : List Message) : List Content :=
  (messages.filter (fun msg => msg.role ≠ MessageRole.system)).map toGeminiContent

/-- extractSystemPrompt (gemini.gateway.ts lines 55-58): content of the
first message with role system, if any. -/
def extractSystemPrompt (messages : List Message) : Option String :=
  (messages.find? (fun msg => msg.role = MessageRole.system)).map
    (fun msg => msg.content)

/-- The request handed to the SDK by generateStream / generate: the
model name, system instruction and generationConfig passed to
getGenerativeModel, the history passed to startChat, and the message
text passed to sendMessage(Stream).  temperature and maxOutputTokens
are always present in the generationConfig object literal; topP and
systemInstruction may be absent. -/
structure GeminiRequest where
  model : String
  systemInstruction : Option String
  temperature : ℚ
  maxOutputTokens : Nat
  topP : Option ℚ
  history : List Content
  prompt : String
deriving DecidableEq

/-- The request-building prefix shared verbatim by generateStream
(gemini.gateway.ts lines 67-105) and generate (lines 132-170): option
fallbacks, message conversion, history = all converted messages but the
last, prompt = text of the last converted message; errors when there is
no last message or its text is falsy (absent or the empty string). -/
def buildRequest (messages : List Message) (options : Option AIGenerateOptions) :
    Except String GeminiRequest :=
  let modelName := (options.bind (fun o => o.model)).getD DEFAULT_MODEL
  let systemPrompt :=
    (options.bind (fun o => o.systemPrompt)).orElse
      (fun _ => extractSystemPrompt messages)
  let geminiMessages := convertMessagesToGeminiFormat messages
  match geminiMessages.getLast? with
  | none => .error "No messages provided"
  | some lastMessage =>
    match (lastMessage.parts.head?).map (fun p => p.text) with
    | none => .error "Message content is empty"
    | some messageText =>
      if messageText = "" then .error "Message content is empty"
      else
        .ok
          { model := modelName
            systemInstruction := systemPrompt
            temperature := (options.bind (fun o => o.temperature)).getD DEFAULT_TEMPERATURE
            maxOutputTokens := (options.bind (fun o => o.maxTokens)).getD DEFAULT_MAX_TOKENS
            topP := options.bind (fun o => o.topP)
            history := geminiMessages.dropLast
            prompt := messageText }

/-- How the relay's ReadableStream terminates: a normal close or an
error signalled through controller.error. -/
inductive StreamEnd where
  | closed
  | errored
deriving DecidableEq

/-- What a consumer of the relay's ReadableStream observes: the
fragments enqueued, in order, followed by the terminal signal. -/
structure RelayOutput where
  fragments : List String
  ending : StreamEnd
deriving DecidableEq

/-- The ReadableStream body of generateStream (gemini.gateway.ts lines
108-122): for each upstream chunk, enqueue its text only when it is
truthy (non-empty); when the upstream iterator throws after yielding
the given chunks, the controller signals the error; otherwise the
stream closes normally.  Chunks enqueued before the failure stay
enqueued. -/
def relayStream (chunks : List String) (upstreamFails : Bool) : RelayOutput :=
  { fragments := chunks.filter (fun text => text ≠ "")
    ending := if upstreamFails then StreamEnd.errored else StreamEnd.closed }

/-- Concatenation of a fragment list, used both for the consumer-side
accumulated text and for the full text a deterministic provider returns
on the non-streaming path. -/
def concatFragments (l : List String) : String :=
  l.foldr (fun s acc => s ++ acc) ""

/-- generateStream (gemini.gateway.ts lines 67-123) against a
deterministic upstream provider p that maps the built request to its
chunk sequence and does not fail: the consumer-visible fragment list. -/
def generateStream (p : GeminiRequest → List String)
    (messages : List Message) (options : Option AIGenerateOptions) :
    Except String (List String) :=
  (buildRequest messages options).map (fun req => (relayStream (p req) false).fragments)

/-- generate (gemini.gateway.ts lines 132-174) against the same
deterministic provider: response.text() is the full completion, i.e.
the concatenation of the chunks the provider would stream. -/
def generate (p : GeminiRequest → List String)
    (messages : List Message) (options : Option AIGenerateOptions) :
    Except String String :=
  (buildRequest messages options).map (fun req => concatFragments (p req))

end GeminiGateway

namespace SendMessageUseCase

/-- validateInput (send-message.use-case.ts lines 76-93): empty
transcript, then no user message, then the first message whose content
is falsy or trims to the empty string. -/
def validateInput (messages : List Message) : Except String Unit :=
  if messages.isEmpty then
    .error "Messages array cannot be empty"
  else if ¬ (messages.any (fun msg => msg.role == MessageRole.user)) then
    .error "At least one user message is required"
  else
    match messages.find? (fun msg => msg.content == "" || jsTrim msg.content == "") with
    | some message => .error ("Message with id " ++ message.id ++ " has empty content")
    | none => .ok ()

/-- Result of execute / executeNonStreaming together with the number of
gateway invocations made, to express the no-call-on-invalid-input
property. -/
structure ExecTrace (α : Type) where
  result : Except String α
  gatewayCalls : Nat
deriving DecidableEq

/-- execute (send-message.use-case.ts lines 57-68): validate, then one
gateway.generateStream call.  The gateway is abstracted as a function;
a thrown validation error prevents the call. -/
def execute {α : Type} (gateway : List Message → Option AIGenerateOptions → α)
    (messages : List Message) (options : Option AIGenerateOptions) : ExecTrace α :=
  match validateInput messages with
  | .error e => { result := .error e, gatewayCalls := 0 }
  | .ok _ => { result := .ok (gateway messages options), gatewayCalls := 1 }

/-- executeNonStreaming (send-message.use-case.ts lines 102-113):
validate, then one gateway.generate call. -/
def executeNonStreaming {α : Type} (gateway : List Message → Option AIGenerateOptions → α)
    (messages : List Message) (options : Option AIGenerateOptions) : ExecTrace α :=
  match validateInput messages with
  | .error e => { result := .error e, gatewayCalls := 0 }
  | .ok _ => { result := .ok (gateway messages options), gatewayCalls := 1 }

end SendMessageUseCase

/-! ## Helper lemmas -/

lemma jsTrim_ne_empty_imp {s : String} (h : jsTrim s ≠ "") : s ≠ "" := by
  intro he
  subst he
  exact h rfl

lemma concatFragments_filter_ne_empty (l : List String) :
    GeminiGateway.concatFragments (l.filter (fun s => s ≠ "")) =
      GeminiGateway.concatFragments l := by
  induction l with
  | nil => rfl
  | cons h t ih =>
    by_cases hh : h = ""
    · subst hh
      have hstep : ("" :: t).filter (fun s => s ≠ "") = t.filter (fun s => s ≠ "") := by
        simp [List.filter_cons]
      rw [hstep, ih]
      rfl
    · have hstep : (h :: t).filter (fun s => s ≠ "") = h :: t.filter (fun s => s ≠ "") := by
        simp [List.filter_cons, hh]
      rw [hstep]
      exact congrArg (fun x => h ++ x) ih

lemma validateInput_ok_iff (messages : List Message) :
    SendMessageUseCase.validateInput messages = .ok () ↔
      messages ≠ [] ∧ (∃ m ∈ messages, m.role = MessageRole.user) ∧
        ∀ m ∈ messages, jsTrim m.content ≠ "" := by
  by_cases h1 : messages = []
  · subst h1
    simp [SendMessageUseCase.validateInput]
  · have hne : messages.isEmpty = false := by
      simpa [List.isEmpty_iff] using h1
    by_cases h2 : ∃ m ∈ messages, m.role = MessageRole.user
    · have hany : messages.any (fun msg => msg.role == MessageRole.user) = true := by
        rw [List.any_eq_true]
        simpa using h2
      by_cases h3 : ∀ m ∈ messages, jsTrim m.content ≠ ""
      · have hfind :
            messages.find? (fun msg => msg.content == "" || jsTrim msg.content == "") = none := by
          rw [List.find?_eq_none]
          intro m hm
          have hcne : m.content ≠ "" := jsTrim_ne_empty_imp (h3 m hm)
          simp [hcne, h3 m hm]
        simp [SendMessageUseCase.validateInput, hne, hany, hfind, h1, h2]
        exact fun m hm => h3 m hm
      · push_neg at h3
        obtain ⟨m0, hm0, hblank⟩ := h3
        have hfind :
            ∃ mf, messages.find? (fun msg => msg.content == "" || jsTrim msg.content == "") = some mf := by
          have hnn : ¬ (messages.find?
              (fun msg => msg.content == "" || jsTrim msg.content == "") = none) := by
            rw [List.find?_eq_none]
            push_neg
            exact ⟨m0, hm0, by simp [hblank]⟩
          exact Option.ne_none_iff_exists'.mp hnn
        obtain ⟨mf, hmf⟩ := hfind
        constructor
        · intro hok
          exfalso
          simp [SendMessageUseCase.validateInput, hne, hany, hmf] at hok
        · intro ⟨_, _, hall⟩
          exact absurd (hall m0 hm0) (by simp [hblank])
    · have hany : messages.any (fun msg => msg.role == MessageRole.user) = false := by
        rw [List.any_eq_false]
        simpa using h2
      constructor
      · intro hok
        exfalso
        simp [SendMessageUseCase.validateInput, hne, hany] at hok
      · intro ⟨_, hex, _⟩
        exact absurd hex h2

lemma convert_getLast? (messages : List Message) (m : Message)
    (hm : (messages.filter (fun x => x.role ≠ MessageRole.system)).getLast? = some m) :
    (GeminiGateway.convertMessagesToGeminiFormat messages).getLast? =
      some (GeminiGateway.toGeminiContent m) := by
  unfold GeminiGateway.convertMessagesToGeminiFormat
  rw [List.getLast?_map, hm]
  rfl

lemma buildRequest_ok_fields (messages : List Message) (options : Option AIGenerateOptions)
    (req : GeminiGateway.GeminiRequest)
    (h : GeminiGateway.buildRequest messages options = .ok req) :
    req.model = (options.bind (fun o => o.model)).getD DEFAULT_MODEL ∧
    req.systemInstruction =
      (options.bind (fun o => o.systemPrompt)).orElse
        (fun _ => GeminiGateway.extractSystemPrompt messages) ∧
    req.temperature = (options.bind (fun o => o.temperature)).getD DEFAULT_TEMPERATURE ∧
    req.maxOutputTokens = (options.bind (fun o => o.maxTokens)).getD DEFAULT_MAX_TOKENS ∧
    req.topP = options.bind (fun o => o.topP) ∧
    req.history = (GeminiGateway.convertMessagesToGeminiFormat messages).dropLast := by
  simp only [GeminiGateway.buildRequest] at h
  split at h
  · cases h
  · split at h
    · cases h
    · split at h
      · cases h
      · cases h
        exact ⟨rfl, rfl, rfl, rfl, rfl, rfl⟩

lemma buildRequest_of_validated (messages : List Message) (options : Option AIGenerateOptions)
    (h : SendMessageUseCase.validateInput messages = .ok ()) :
    ∃ m,
      (messages.filter (fun x => x.role ≠ MessageRole.system)).getLast? = some m ∧
      GeminiGateway.buildRequest messages options =
        .ok
          { model := (options.bind (fun o => o.model)).getD DEFAULT_MODEL
            systemInstruction :=
              (options.bind (fun o => o.systemPrompt)).orElse
                (fun _ => GeminiGateway.extractSystemPrompt messages)
            temperature := (options.bind (fun o => o.temperature)).getD DEFAULT_TEMPERATURE
            maxOutputTokens := (options.bind (fun o => o.maxTokens)).getD DEFAULT_MAX_TOKENS
            topP := options.bind (fun o => o.topP)
            history := (GeminiGateway.convertMessagesToGeminiFormat messages).dropLast
            prompt := m.content } := by
  obtain ⟨hne, ⟨mu, hmu, hrole⟩, hblank⟩ := (validateInput_ok_iff messages).mp h
  have hmem : mu ∈ messages.filter (fun x => x.role ≠ MessageRole.system) := by
    rw [List.mem_filter]
    refine ⟨hmu, ?_⟩
    simp [hrole]
  have hfne : messages.filter (fun x => x.role ≠ MessageRole.system) ≠ [] :=
    List.ne_nil_of_mem hmem
  obtain ⟨m, hm⟩ := Option.isSome_iff_exists.mp (List.getLast?_isSome.mpr hfne)
  have hmmes : m ∈ messages :=
    (List.mem_filter.mp (List.mem_of_getLast?_eq_some hm)).1
  have hcne : m.content ≠ "" := jsTrim_ne_empty_imp (hblank m hmmes)
  refine ⟨m, hm, ?_⟩
  simp only [GeminiGateway.buildRequest]
  rw [convert_getLast? messages m hm]
  simp [GeminiGateway.toGeminiContent, hcne]

/-! ## Claim theorems -/

/-- C1: for every validated transcript and options and a deterministic
upstream provider, concatenating all fragments yielded by the streaming
operation equals the single string returned by the non-streaming
operation for the same transcript and options. -/
theorem stream_concat_eq_generate (p : GeminiGateway.GeminiRequest → List String)
    (messages : List Message) (options : Option AIGenerateOptions)
    (h : SendMessageUseCase.validateInput messages = .ok ()) :
    ∃ frags full,
      GeminiGateway.generateStream p messages options = .ok frags ∧
      GeminiGateway.generate p messages options = .ok full ∧
      GeminiGateway.concatFragments frags = full := by
  obtain ⟨m, _, hreq⟩ := buildRequest_of_validated messages options h
  obtain ⟨r, hr⟩ : ∃ r, GeminiGateway.buildRequest messages options = .ok r := ⟨_, hreq⟩
  refine ⟨(GeminiGateway.relayStream (p r) false).fragments,
    GeminiGateway.concatFragments (p r), ?_, ?_, ?_⟩
  · simp [GeminiGateway.generateStream, hr, Except.map]
  · simp [GeminiGateway.generate, hr, Except.map]
  · exact concatFragments_filter_ne_empty (p r)

/-- Closed witness for C1 at a concrete transcript and stub provider. -/
theorem stream_concat_eq_generate_witness :
    SendMessageUseCase.validateInput [⟨"u1", MessageRole.user, "hi"⟩] = .ok () ∧
    ∃ frags full,
      GeminiGateway.generateStream (fun _ => ["Hel", "lo", " world"])
        [⟨"u1", MessageRole.user, "hi"⟩] none = .ok frags ∧
      GeminiGateway.generate (fun _ => ["Hel", "lo", " world"])
        [⟨"u1", MessageRole.user, "hi"⟩] none = .ok full ∧
      GeminiGateway.concatFragments frags = full :=
  ⟨by decide,
    stream_concat_eq_generate (fun _ => ["Hel", "lo", " world"])
      [⟨"u1", MessageRole.user, "hi"⟩] none (by decide)⟩

/-- C2 counterexample: with a system turn "A" in the transcript and
options.systemPrompt = "B", the request's system instruction is "B"
(the option), not the transcript's system turn, refuting the claimed
precedence. -/
theorem systemPrompt_option_overrides_transcript_cex :
    (GeminiGateway.buildRequest
        [⟨"s1", MessageRole.system, "A"⟩, ⟨"u1", MessageRole.user, "hi"⟩]
        (some { systemPrompt := some "B" })).map
      (fun r => r.systemInstruction) = .ok (some "B") ∧
    GeminiGateway.extractSystemPrompt
      [⟨"s1", MessageRole.system, "A"⟩, ⟨"u1", MessageRole.user, "hi"⟩] = some "A" ∧
    (some "B" : Option String) ≠ some "A" := by
  decide

/-- C2 amended: the system instruction sent upstream is
options.systemPrompt when that option is set; only when the option is
unset does it fall back to the content of the first system turn. -/
theorem systemInstruction_precedence (messages : List Message)
    (options : AIGenerateOptions) (req : GeminiGateway.GeminiRequest)
    (h : GeminiGateway.buildRequest messages (some options) = .ok req) :
    (∀ s, options.systemPrompt = some s → req.systemInstruction = some s) ∧
    (options.systemPrompt = none →
      req.systemInstruction =
        (messages.find? (fun msg => msg.role = MessageRole.system)).map
          (fun msg => msg.content)) := by
  obtain ⟨-, hsys, -⟩ := buildRequest_ok_fields messages (some options) req h
  constructor
  · intro s hs
    rw [hsys]
    simp [hs, Option.orElse]
  · intro hs
    rw [hsys]
    simp [hs, Option.orElse, GeminiGateway.extractSystemPrompt]

/-- Closed witness for the amended C2. -/
theorem systemInstruction_precedence_witness :
    GeminiGateway.buildRequest [⟨"u1", MessageRole.user, "hi"⟩]
        (some { systemPrompt := some "S" }) =
      .ok
        { model := DEFAULT_MODEL
          systemInstruction := some "S"
          temperature := DEFAULT_TEMPERATURE
          maxOutputTokens := DEFAULT_MAX_TOKENS
          topP := none
          history := []
          prompt := "hi" } ∧
    ((∀ s, (some "S" : Option String) = some s →
        (some "S" : Option String) = some s) ∧
      ((some "S" : Option String) = none →
        (some "S" : Option String) =
          (([⟨"u1", MessageRole.user, "hi"⟩] : List Message).find?
              (fun msg => msg.role = MessageRole.system)).map
            (fun msg => msg.content))) :=
  ⟨by decide,
    systemInstruction_precedence [⟨"u1", MessageRole.user, "hi"⟩]
      { systemPrompt := some "S" }
      { model := DEFAULT_MODEL
        systemInstruction := some "S"
        temperature := DEFAULT_TEMPERATURE
        maxOutputTokens := DEFAULT_MAX_TOKENS
        topP := none
        history := []
        prompt := "hi" } (by decide)⟩

/-- C3: validateInput fails exactly when the transcript is empty, or no
turn has role user, or some turn's text is empty or all-whitespace; on
every other transcript it succeeds. -/
theorem validate_fails_characterization (messages : List Message) :
    (∃ e, SendMessageUseCase.validateInput messages = .error e) ↔
      (messages = [] ∨ (∀ m ∈ messages, m.role ≠ MessageRole.user) ∨
        ∃ m ∈ messages, jsTrim m.content = "") := by
  have hcases : (∃ e, SendMessageUseCase.validateInput messages = .error e) ↔
      ¬ (SendMessageUseCase.validateInput messages = .ok ()) := by
    cases hv : SendMessageUseCase.validateInput messages with
    | ok u => cases u; simp
    | error e => simp
  rw [hcases, validateInput_ok_iff, not_and_or, not_and_or]
  simp [not_exists, not_forall, not_not]

/-- C4 counterexample: the transcript [user "hi", assistant "ok"]
passes validation, yet the turn whose text becomes the upstream prompt
is the assistant turn, not a user-authored one. -/
theorem prompt_not_user_turn_cex :
    SendMessageUseCase.validateInput
        [⟨"u1", MessageRole.user, "hi"⟩, ⟨"a1", MessageRole.assistant, "ok"⟩] = .ok () ∧
    (GeminiGateway.buildRequest
        [⟨"u1", MessageRole.user, "hi"⟩, ⟨"a1", MessageRole.assistant, "ok"⟩] none).map
      (fun r => r.prompt) = .ok "ok" ∧
    ((([⟨"u1", MessageRole.user, "hi"⟩, ⟨"a1", MessageRole.assistant, "ok"⟩] :
          List Message).filter
        (fun x => x.role ≠ MessageRole.system)).getLast?).map (fun m => m.role) =
      some MessageRole.assistant := by
  decide

/-- C4 amended: for every validated transcript the single upstream
request carries all non-system turns except the last as history and the
text of the last non-system turn as the new prompt; that turn is
user-authored only when the transcript's last non-system turn has role
user. -/
theorem request_history_and_prompt (messages : List Message)
    (options : Option AIGenerateOptions)
    (h : SendMessageUseCase.validateInput messages = .ok ()) :
    ∃ m req,
      (messages.filter (fun x => x.role ≠ MessageRole.system)).getLast? = some m ∧
      GeminiGateway.buildRequest messages options = .ok req ∧
      req.history = (GeminiGateway.convertMessagesToGeminiFormat messages).dropLast ∧
      req.prompt = m.content := by
  obtain ⟨m, hm, hreq⟩ := buildRequest_of_validated messages options h
  exact ⟨m, _, hm, hreq, rfl, rfl⟩

/-- Closed witness for the amended C4. -/
theorem request_history_and_prompt_witness :
    SendMessageUseCase.validateInput
        [⟨"u1", MessageRole.user, "hi"⟩, ⟨"u2", MessageRole.user, "more"⟩] = .ok () ∧
    ∃ m req,
      (([⟨"u1", MessageRole.user, "hi"⟩, ⟨"u2", MessageRole.user, "more"⟩] :
            List Message).filter
          (fun x => x.role ≠ MessageRole.system)).getLast? = some m ∧
      GeminiGateway.buildRequest
          [⟨"u1", MessageRole.user, "hi"⟩, ⟨"u2", MessageRole.user, "more"⟩] none = .ok req ∧
      req.history =
        (GeminiGateway.convertMessagesToGeminiFormat
          [⟨"u1", MessageRole.user, "hi"⟩, ⟨"u2", MessageRole.user, "more"⟩]).dropLast ∧
      req.prompt = m.content :=
  ⟨by decide,
    request_history_and_prompt
      [⟨"u1", MessageRole.user, "hi"⟩, ⟨"u2", MessageRole.user, "more"⟩] none (by decide)⟩

/-- C5: when the upstream iterator fails after yielding its chunks, the
relay stream ends with the error signal and still carries exactly the
fragments a non-failing relay of the same chunks would deliver — no
enqueued fragment is retracted. -/
theorem midstream_failure_preserves_fragments (chunks : List String)
    (h : chunks ≠ []) :
    (GeminiGateway.relayStream chunks true).ending = GeminiGateway.StreamEnd.errored ∧
    (GeminiGateway.relayStream chunks true).fragments =
      (GeminiGateway.relayStream chunks false).fragments ∧
    (GeminiGateway.relayStream chunks true).fragments =
      chunks.filter (fun s => s ≠ "") := by
  exact ⟨rfl, rfl, rfl⟩

/-- Closed witness for C5 at the spec's stub scenario: one fragment
yielded, then a failure. -/
theorem midstream_failure_preserves_fragments_witness :
    (["Hel"] : List String) ≠ [] ∧
    ((GeminiGateway.relayStream ["Hel"] true).ending =
        GeminiGateway.StreamEnd.errored ∧
      (GeminiGateway.relayStream ["Hel"] true).fragments =
        (GeminiGateway.relayStream ["Hel"] false).fragments ∧
      (GeminiGateway.relayStream ["Hel"] true).fragments =
        (["Hel"] : List String).filter (fun s => s ≠ "")) :=
  ⟨by decide, midstream_failure_preserves_fragments ["Hel"] (by decide)⟩

/-- C6 counterexample: with upstream chunks ["", "a"], the first
fragment the consumer sees is "a", not the empty first chunk — the
fragment sequence is not the chunk sequence verbatim. -/
theorem empty_fragment_not_verbatim_cex :
    (GeminiGateway.relayStream ["", "a"] false).fragments ≠ ["", "a"] ∧
    (GeminiGateway.relayStream ["", "a"] false).fragments.head? = some "a" := by
  decide

/-- C6 amended: the relay delivers exactly the non-empty upstream
chunks, verbatim and in their upstream order (the delivered sequence is
the subsequence of non-empty chunks); empty chunks are dropped. -/
theorem stream_fragments_eq_filter (chunks : List String) (upstreamFails : Bool) :
    (GeminiGateway.relayStream chunks upstreamFails).fragments.Sublist chunks ∧
    (GeminiGateway.relayStream chunks upstreamFails).fragments =
      chunks.filter (fun s => s ≠ "") :=
  ⟨List.filter_sublist chunks, rfl⟩

/-- C7: when validation fails, the error is raised before the gateway
is invoked: both execute and executeNonStreaming record zero gateway
calls and surface the validation error. -/
theorem no_gateway_call_on_invalid_input {α : Type}
    (gateway : List Message → Option AIGenerateOptions → α)
    (messages : List Message) (options : Option AIGenerateOptions) (e : String)
    (h : SendMessageUseCase.validateInput messages = .error e) :
    (SendMessageUseCase.execute gateway messages options).gatewayCalls = 0 ∧
    (SendMessageUseCase.execute gateway messages options).result = .error e ∧
    (SendMessageUseCase.executeNonStreaming gateway messages options).gatewayCalls = 0 ∧
    (SendMessageUseCase.executeNonStreaming gateway messages options).result = .error e := by
  unfold SendMessageUseCase.execute SendMessageUseCase.executeNonStreaming
  rw [h]
  exact ⟨rfl, rfl, rfl, rfl⟩

/-- Closed witness for C7 on the empty transcript with a stub gateway. -/
theorem no_gateway_call_on_invalid_input_witness :
    SendMessageUseCase.validateInput [] = .error "Messages array cannot be empty" ∧
    ((SendMessageUseCase.execute (fun _ _ => (0 : Nat)) [] none).gatewayCalls = 0 ∧
      (SendMessageUseCase.execute (fun _ _ => (0 : Nat)) [] none).result =
        .error "Messages array cannot be empty" ∧
      (SendMessageUseCase.executeNonStreaming (fun _ _ => (0 : Nat)) [] none).gatewayCalls = 0 ∧
      (SendMessageUseCase.executeNonStreaming (fun _ _ => (0 : Nat)) [] none).result =
        .error "Messages array cannot be empty") :=
  ⟨by decide,
    no_gateway_call_on_invalid_input (fun _ _ => (0 : Nat)) [] none
      "Messages array cannot be empty" (by decide)⟩

/-- C8 counterexample: with no options at all, the request carries the
relay's own constants for model, temperature and maxOutputTokens
instead of leaving those fields unset for the provider defaults. -/
theorem relay_defaults_substituted_cex :
    (GeminiGateway.buildRequest [⟨"u1", MessageRole.user, "hi"⟩] none).map
        (fun r => (r.model, r.temperature, r.maxOutputTokens)) =
      .ok (DEFAULT_MODEL, DEFAULT_TEMPERATURE, DEFAULT_MAX_TOKENS) ∧
    DEFAULT_MODEL = "gemini-2.0-flash-exp" ∧
    DEFAULT_TEMPERATURE.num = 7 ∧ DEFAULT_TEMPERATURE.den = 10 ∧
    DEFAULT_MAX_TOKENS = 2048 := by
  decide

/-- C8 amended: an unset topP is left unset and an unset systemPrompt
falls back to the transcript's first system turn (unset if none), but
unset temperature, maxTokens and model are replaced by the relay's own
defaults DEFAULT_TEMPERATURE, DEFAULT_MAX_TOKENS and DEFAULT_MODEL. -/
theorem unset_options_behavior (messages : List Message)
    (options : Option AIGenerateOptions) (req : GeminiGateway.GeminiRequest)
    (h : GeminiGateway.buildRequest messages options = .ok req) :
    req.topP = options.bind (fun o => o.topP) ∧
    req.temperature = (options.bind (fun o => o.temperature)).getD DEFAULT_TEMPERATURE ∧
    req.maxOutputTokens = (options.bind (fun o => o.maxTokens)).getD DEFAULT_MAX_TOKENS ∧
    req.model = (options.bind (fun o => o.model)).getD DEFAULT_MODEL ∧
    req.systemInstruction =
      (options.bind (fun o => o.systemPrompt)).orElse
        (fun _ => GeminiGateway.extractSystemPrompt messages) := by
  obtain ⟨h1, h2, h3, h4, h5, -⟩ := buildRequest_ok_fields messages options req h
  exact ⟨h5, h3, h4, h1, h2⟩

/-- Closed witness for the amended C8 with all options unset. -/
theorem unset_options_behavior_witness :
    GeminiGateway.buildRequest [⟨"u1", MessageRole.user, "hi"⟩] none =
      .ok
        { model := DEFAULT_MODEL
          systemInstruction := none
          temperature := DEFAULT_TEMPERATURE
          maxOutputTokens := DEFAULT_MAX_TOKENS
          topP := none
          history := []
          prompt := "hi" } ∧
    ((none : Option ℚ) = (none : Option AIGenerateOptions).bind (fun o => o.topP) ∧
      DEFAULT_TEMPERATURE =
        ((none : Option AIGenerateOptions).bind (fun o => o.temperature)).getD
          DEFAULT_TEMPERATURE ∧
      DEFAULT_MAX_TOKENS =
        ((none : Option AIGenerateOptions).bind (fun o => o.maxTokens)).getD
          DEFAULT_MAX_TOKENS ∧
      DEFAULT_MODEL =
        ((none : Option AIGenerateOptions).bind (fun o => o.model)).getD DEFAULT_MODEL ∧
      (none : Option String) =
        ((none : Option AIGenerateOptions).bind (fun o => o.systemPrompt)).orElse
          (fun _ =>
            GeminiGateway.extractSystemPrompt [⟨"u1", MessageRole.user, "hi"⟩])) :=
  ⟨by decide,
    unset_options_behavior [⟨"u1", MessageRole.user, "hi"⟩] none
      { model := DEFAULT_MODEL
        systemInstruction := none
        temperature := DEFAULT_TEMPERATURE
        maxOutputTokens := DEFAULT_MAX_TOKENS
        topP := none
        history := []
        prompt := "hi" } (by decide)⟩

/-- C9 counterexample: the transcript with the single whitespace-only
assistant turn "zz" fails validation, but the error is the
missing-user-turn message, which does not contain the offending turn's
id. -/
theorem blank_turn_error_without_id_cex :
    SendMessageUseCase.validateInput [⟨"zz", MessageRole.assistant, " "⟩] =
      .error "At least one user message is required" ∧
    ¬ ("zz".data <:+: ("At least one user message is required" : String).data) := by
  decide

/-- C9 amended: a transcript containing a blank turn always fails
validation; when the transcript also contains a user turn (so the
per-turn check is reached), the error names the id of the first blank
turn, and that id occurs inside the error text. -/
theorem blank_turn_error_names_id (messages : List Message) (m : Message)
    (hm : m ∈ messages) (hblank : jsTrim m.content = "") :
    (∃ e, SendMessageUseCase.validateInput messages = .error e) ∧
    (messages.any (fun msg => msg.role == MessageRole.user) = true →
      ∃ mf, messages.find?
          (fun msg => msg.content == "" || jsTrim msg.content == "") = some mf ∧
        SendMessageUseCase.validateInput messages =
          .error ("Message with id " ++ mf.id ++ " has empty content") ∧
        mf.id.data <:+: ("Message with id " ++ mf.id ++ " has empty content").data) := by
  have hne : messages ≠ [] := List.ne_nil_of_mem hm
  have hnotempty : messages.isEmpty = false := by
    simpa [List.isEmpty_iff] using hne
  have hfind : ∃ mf, messages.find?
      (fun msg => msg.content == "" || jsTrim msg.content == "") = some mf := by
    have hnn : ¬ (messages.find?
        (fun msg => msg.content == "" || jsTrim msg.content == "") = none) := by
      rw [List.find?_eq_none]
      push_neg
      exact ⟨m, hm, by simp [hblank]⟩
    exact Option.ne_none_iff_exists'.mp hnn
  obtain ⟨mf, hmf⟩ := hfind
  constructor
  · cases hany : messages.any (fun msg => msg.role == MessageRole.user) with
    | false =>
      refine ⟨"At least one user message is required", ?_⟩
      simp [SendMessageUseCase.validateInput, hnotempty, hany]
    | true =>
      refine ⟨"Message with id " ++ mf.id ++ " has empty content", ?_⟩
      simp [SendMessageUseCase.validateInput, hnotempty, hany, hmf]
  · intro hany
    refine ⟨mf, hmf, ?_, ?_⟩
    · simp [SendMessageUseCase.validateInput, hnotempty, hany, hmf]
    · exact ⟨"Message with id ".data, " has empty content".data, by simp⟩

/-- Closed witness for the amended C9: a transcript with a user turn
and a blank turn. -/
theorem blank_turn_error_names_id_witness :
    ((⟨"b1", MessageRole.user, " "⟩ : Message) ∈
        ([⟨"u1", MessageRole.user, "hi"⟩, ⟨"b1", MessageRole.user, " "⟩] :
          List Message)) ∧
    jsTrim " " = "" ∧
    ((∃ e, SendMessageUseCase.validateInput
        [⟨"u1", MessageRole.user, "hi"⟩, ⟨"b1", MessageRole.user, " "⟩] = .error e) ∧
      (([⟨"u1", MessageRole.user, "hi"⟩, ⟨"b1", MessageRole.user, " "⟩] :
            List Message).any (fun msg => msg.role == MessageRole.user) = true →
        ∃ mf, ([⟨"u1", MessageRole.user, "hi"⟩, ⟨"b1", MessageRole.user, " "⟩] :
              List Message).find?
            (fun msg => msg.content == "" || jsTrim msg.content == "") = some mf ∧
          SendMessageUseCase.validateInput
              [⟨"u1", MessageRole.user, "hi"⟩, ⟨"b1", MessageRole.user, " "⟩] =
            .error ("Message with id " ++ mf.id ++ " has empty content") ∧
          mf.id.data <:+:
            ("Message with id " ++ mf.id ++ " has empty content").data)) :=
  ⟨by decide, by decide,
    blank_turn_error_names_id
      [⟨"u1", MessageRole.user, "hi"⟩, ⟨"b1", MessageRole.user, " "⟩]
      ⟨"b1", MessageRole.user, " "⟩ (by decide) (by decide)⟩

/-- C10: every fragment the relay delivers is a non-empty string;
upstream chunks with empty text never reach the consumer. -/
theorem delivered_fragments_nonempty (chunks : List String) (upstreamFails : Bool)
    (f : String) (hf : f ∈ (GeminiGateway.relayStream chunks upstreamFails).fragments) :
    f ≠ "" := by
  have hf2 : f ∈ chunks.filter (fun s => s ≠ "") := hf
  have := List.of_mem_filter hf2
  simpa using this

/-- Closed witness for C10. -/
theorem delivered_fragments_nonempty_witness :
    ("a" : String) ∈ (GeminiGateway.relayStream ["", "a"] false).fragments ∧
    ("a" : String) ≠ "" :=
  ⟨by decide, delivered_fragments_nonempty ["", "a"] false "a" (by decide)⟩

